import Mathlib

/-!
Verification of the hunspell-rs boundary layer (src/spell_checker.rs,
src/error.rs, src/serde.rs) against its natural-language specification.

Shallow embedding conventions:
- OS paths, C strings and host strings are byte lists (`List Nat`); Rust's
  `CString::new` is `cstring`, which fails on an embedded NUL byte.
- The opaque native handle is a `Nat`; `0` models a null handle.
- The native engine (hunspell-sys FFI surface) is a structure of opaque
  functions, one per `Hunspell_*` entry point used by the source.
- A native `(char**, int)` result is a `NativeList`: a pointer value
  (`0` = null), a cell map giving each element pointer's bytes (`none` =
  null element pointer), and the `i32` count as an `Int`.
- The filesystem is a structure `FS` with an `is_file` predicate; a path
  containing a NUL byte never names an existing file, because Rust's
  `Path::is_file` reaches the OS through a C API that rejects such paths
  (`fs::metadata` errors, so `is_file()` returns `false`).
- Each operation returns its Rust result together with the trace of FFI
  calls it issued (`List Ev`), so "no native call is issued before the
  error" and "the produced list is released" are statable.
- Error variants keep the source's names; payloads are simplified to the
  path bytes (the source stores `String`/`PathBuf` renderings) and the
  `Utf8Error`/`NulError` details are dropped, since no claim inspects them.
-/

deriving instance DecidableEq for Except

/-- The error taxonomy of src/error.rs. -/
inductive Error where
  | HunspellLibError (code : Int)
  | NegativeListLength (len : Int)
  | NullPtr
  | AffixFileIsNoFile (path : List Nat)
  | DictionaryFileIsNoFile (path : List Nat)
  | CannotAddMoreDictionaries (path : List Nat)
  | Utf8Error
  | NulError
  deriving DecidableEq, Repr

/-- One FFI call issued by an operation. List-producing calls record the
pointer value of the list the engine returned; `free_list` records the
pointer and count passed to `Hunspell_free_list`. -/
inductive Ev where
  | create
  | create_key
  | add_dic
  | add
  | add_with_affix
  | remove
  | spell
  | suggest (ptr : Nat)
  | analyze (ptr : Nat)
  | stem (ptr : Nat)
  | stem2 (ptr : Nat)
  | generate (ptr : Nat)
  | generate2 (ptr : Nat)
  | free_list (ptr : Nat) (len : Int)
  deriving DecidableEq, Repr

/-- A native `(char**, int)` pair as the engine hands it back: the array
pointer (`0` = null), the contents behind each element pointer (`none` =
null element pointer, otherwise the NUL-terminated byte string's bytes),
and the count. -/
structure NativeList where
  ptr : Nat
  cells : Nat → Option (List Nat)
  len : Int

/-- The hunspell-sys FFI surface used by the source, as opaque functions.
The handle argument is the `Nat` stored in the session. -/
structure Engine where
  Hunspell_create : List Nat → List Nat → Nat
  Hunspell_create_key : List Nat → List Nat → List Nat → Nat
  Hunspell_add_dic : Nat → List Nat → Int
  Hunspell_add : Nat → List Nat → Int
  Hunspell_add_with_affix : Nat → List Nat → List Nat → Int
  Hunspell_remove : Nat → List Nat → Int
  Hunspell_spell : Nat → List Nat → Int
  Hunspell_suggest : Nat → List Nat → NativeList
  Hunspell_analyze : Nat → List Nat → NativeList
  Hunspell_stem : Nat → List Nat → NativeList
  Hunspell_stem2 : Nat → NativeList → NativeList
  Hunspell_generate : Nat → List Nat → List Nat → NativeList
  Hunspell_generate2 : Nat → List Nat → NativeList → NativeList

/-- The filesystem seen through `Path::is_file`. A path with an embedded
NUL byte can never name an existing regular file: the standard library
converts the path to a C string to make the `stat` call, and that
conversion fails, so `is_file()` returns `false`. -/
structure FS where
  is_file : List Nat → Bool
  is_file_no_nul : ∀ p, is_file p = true → ¬ 0 ∈ p

/-- The session struct of src/spell_checker.rs. -/
structure SpellChecker where
  affix : List Nat
  dictionary : List Nat
  additional_dictionaries : List (List Nat)
  key : Option (List Nat)
  handle : Nat
  deriving DecidableEq, Repr

/-- Outcome of `impl Clone for SpellChecker`: either a new session, or the
process aborts through the `expect` calls (`panics`). -/
inductive CloneOutcome where
  | ok (s : SpellChecker)
  | panics
  deriving DecidableEq, Repr

/-- What `#[derive(Serialize)]` with `#[serde(skip)]` on `handle` emits:
the four configuration fields and nothing else. -/
structure SerializedSpellChecker where
  affix : List Nat
  dictionary : List Nat
  additional_dictionaries : List (List Nat)
  key : Option (List Nat)
  deriving DecidableEq, Repr

/-- Continuation byte test for UTF-8 (0x80..=0xBF). -/
def utf8Cont (b : Nat) : Bool := 128 ≤ b && b < 192

/-- Strict UTF-8 validity of a byte sequence, as `str::from_utf8` checks
it (rejecting overlong forms, surrogates and code points above U+10FFFF).
This models the `CStr::to_str` validation the source delegates to the
Rust standard library. -/
def isValidUtf8 : List Nat → Bool
  | [] => true
  | b :: rest =>
    if b < 128 then isValidUtf8 rest
    else if b < 194 then false
    else if b < 224 then
      match rest with
      | b1 :: rest2 => utf8Cont b1 && isValidUtf8 rest2
      | [] => false
    else if b < 240 then
      match rest with
      | b1 :: b2 :: rest2 =>
        (if b = 224 then decide (160 ≤ b1) && decide (b1 < 192)
         else if b = 237 then decide (128 ≤ b1) && decide (b1 < 160)
         else utf8Cont b1) && utf8Cont b2 && isValidUtf8 rest2
      | _ => false
    else if b < 245 then
      match rest with
      | b1 :: b2 :: b3 :: rest2 =>
        (if b = 240 then decide (144 ≤ b1) && decide (b1 < 192)
         else if b = 244 then decide (128 ≤ b1) && decide (b1 < 144)
         else utf8Cont b1) && utf8Cont b2 && utf8Cont b3 && isValidUtf8 rest2
      | _ => false
    else false

/-- `CString::new`: fails with `NulError` when the bytes contain an
embedded NUL, otherwise passes the bytes through. -/
def cstring (bytes : List Nat) : Except Error (List Nat) :=
  if 0 ∈ bytes then .error .NulError else .ok bytes

/-- `check_paths` of src/spell_checker.rs:332. -/
def check_paths (fs : FS) (affix dictionary : List Nat) :
    Except Error (List Nat × List Nat) :=
  if fs.is_file affix then
    if fs.is_file dictionary then .ok (affix, dictionary)
    else .error (.DictionaryFileIsNoFile dictionary)
  else .error (.AffixFileIsNoFile affix)

/-- The element loop of `list_to_vec` (src/spell_checker.rs:362-375):
reads the cells at indices `i, i+1, ..., i+n-1` in order, failing with
`NullPtr` on a null element pointer and `Utf8Error` on invalid bytes,
short-circuiting at the first failure as `collect::<Result<_,_>>` does. -/
def decodeCells (cells : Nat → Option (List Nat)) : Nat → Nat → Except Error (List (List Nat))
  | _, 0 => .ok []
  | i, n + 1 =>
    match cells i with
    | none => .error .NullPtr
    | some b =>
      if isValidUtf8 b then
        match decodeCells cells (i + 1) n with
        | .error err => .error err
        | .ok rest => .ok (b :: rest)
      else .error .Utf8Error

/-- `list_to_vec` of src/spell_checker.rs:348: null-pointer check first,
then negative length, then the zero-length fast path, then the element
loop over exactly `len` cells. -/
def list_to_vec (nl : NativeList) : Except Error (List (List Nat)) :=
  if nl.ptr = 0 then .error .NullPtr
  else if nl.len < 0 then .error (.NegativeListLength nl.len)
  else if nl.len = 0 then .ok []
  else decodeCells nl.cells 0 nl.len.toNat

/-- `SpellChecker::new` (src/spell_checker.rs:53): validate the paths,
convert both to C strings, then call `Hunspell_create` and return the
session with whatever handle the engine produced — the handle is not
inspected. The second component is the FFI-call trace. -/
def SpellChecker.new (fs : FS) (e : Engine) (affix dictionary : List Nat) :
    Except Error SpellChecker × List Ev :=
  match check_paths fs affix dictionary with
  | .error err => (.error err, [])
  | .ok (a, d) =>
    match cstring a with
    | .error err => (.error err, [])
    | .ok ca =>
      match cstring d with
      | .error err => (.error err, [])
      | .ok cd =>
        (.ok { affix := a, dictionary := d, additional_dictionaries := [],
               key := none, handle := e.Hunspell_create ca cd }, [.create])

/-- `SpellChecker::new_with_key` (src/spell_checker.rs:78): like `new`,
with the key converted last and stored in the session. -/
def SpellChecker.new_with_key (fs : FS) (e : Engine)
    (affix dictionary key : List Nat) : Except Error SpellChecker × List Ev :=
  match check_paths fs affix dictionary with
  | .error err => (.error err, [])
  | .ok (a, d) =>
    match cstring a with
    | .error err => (.error err, [])
    | .ok ca =>
      match cstring d with
      | .error err => (.error err, [])
      | .ok cd =>
        match cstring key with
        | .error err => (.error err, [])
        | .ok ck =>
          (.ok { affix := a, dictionary := d, additional_dictionaries := [],
                 key := some key, handle := e.Hunspell_create_key ca cd ck },
           [.create_key])

/-- `SpellChecker::add_dictionary` (src/spell_checker.rs:113): cap check
first, then file-existence check, then C-string conversion; the path is
pushed onto `additional_dictionaries` before the native call, whose
status becomes the returned boolean. The first component is the session
state after the call (unchanged on every error path). -/
def SpellChecker.add_dictionary (fs : FS) (e : Engine) (s : SpellChecker)
    (dictionary : List Nat) : (SpellChecker × Except Error Bool) × List Ev :=
  if s.additional_dictionaries.length = 20 then
    ((s, .error (.CannotAddMoreDictionaries dictionary)), [])
  else if fs.is_file dictionary then
    match cstring dictionary with
    | .error err => ((s, .error err), [])
    | .ok cd =>
      (({ s with additional_dictionaries := s.additional_dictionaries ++ [dictionary] },
        .ok (e.Hunspell_add_dic s.handle cd == 0)), [.add_dic])
  else ((s, .error (.DictionaryFileIsNoFile dictionary)), [])

/-- `SpellChecker::add` (src/spell_checker.rs:138). -/
def SpellChecker.add (e : Engine) (s : SpellChecker) (word : List Nat) :
    Except Error Unit × List Ev :=
  match cstring word with
  | .error err => (.error err, [])
  | .ok w =>
    let result := e.Hunspell_add s.handle w
    (if result = 0 then .ok () else .error (.HunspellLibError result), [.add])

/-- `SpellChecker::add_with_affix` (src/spell_checker.rs:159): both words
are converted before the native call. -/
def SpellChecker.add_with_affix (e : Engine) (s : SpellChecker)
    (word exampleWord : List Nat) : Except Error Unit × List Ev :=
  match cstring word with
  | .error err => (.error err, [])
  | .ok w =>
    match cstring exampleWord with
    | .error err => (.error err, [])
    | .ok ex =>
      let result := e.Hunspell_add_with_affix s.handle w ex
      (if result = 0 then .ok () else .error (.HunspellLibError result),
       [.add_with_affix])

/-- `SpellChecker::remove` (src/spell_checker.rs:175). -/
def SpellChecker.remove (e : Engine) (s : SpellChecker) (word : List Nat) :
    Except Error Unit × List Ev :=
  match cstring word with
  | .error err => (.error err, [])
  | .ok w =>
    let result := e.Hunspell_remove s.handle w
    (if result = 0 then .ok () else .error (.HunspellLibError result), [.remove])

/-- `SpellChecker::check` (src/spell_checker.rs:189): native zero means
misspelled, anything else means correct. -/
def SpellChecker.check (e : Engine) (s : SpellChecker) (word : List Nat) :
    Except Error Bool × List Ev :=
  match cstring word with
  | .error err => (.error err, [])
  | .ok w =>
    (if e.Hunspell_spell s.handle w = 0 then .ok false else .ok true, [.spell])

/-- `SpellChecker::suggest` (src/spell_checker.rs:202): produces a list
and decodes it; the `Hunspell_free_list` call is commented out in the
source, so the trace holds no `free_list` event. -/
def SpellChecker.suggest (e : Engine) (s : SpellChecker) (word : List Nat) :
    Except Error (List (List Nat)) × List Ev :=
  match cstring word with
  | .error err => (.error err, [])
  | .ok w =>
    let nl := e.Hunspell_suggest s.handle w
    (list_to_vec nl, [.suggest nl.ptr])

/-- `SpellChecker::analyze` (src/spell_checker.rs:215): decodes, then
frees the list — but the `?` on `list_to_vec` returns before the free
when decoding fails. -/
def SpellChecker.analyze (e : Engine) (s : SpellChecker) (word : List Nat) :
    Except Error (List (List Nat)) × List Ev :=
  match cstring word with
  | .error err => (.error err, [])
  | .ok w =>
    let nl := e.Hunspell_analyze s.handle w
    match list_to_vec nl with
    | .error err => (.error err, [.analyze nl.ptr])
    | .ok strings => (.ok strings, [.analyze nl.ptr, .free_list nl.ptr nl.len])

/-- `SpellChecker::stem` (src/spell_checker.rs:229): the free call is
commented out, as in `suggest`. -/
def SpellChecker.stem (e : Engine) (s : SpellChecker) (word : List Nat) :
    Except Error (List (List Nat)) × List Ev :=
  match cstring word with
  | .error err => (.error err, [])
  | .ok w =>
    let nl := e.Hunspell_stem s.handle w
    (list_to_vec nl, [.stem nl.ptr])

/-- `SpellChecker::extended_stem` (src/spell_checker.rs:242): analyzes,
feeds the analysis into `Hunspell_stem2`, decodes the stem list, then
frees only the intermediate analysis list (the free of the stem list is
commented out, and the `?` skips even the intermediate free on error). -/
def SpellChecker.extended_stem (e : Engine) (s : SpellChecker) (word : List Nat) :
    Except Error (List (List Nat)) × List Ev :=
  match cstring word with
  | .error err => (.error err, [])
  | .ok w =>
    let analyzed := e.Hunspell_analyze s.handle w
    let nl := e.Hunspell_stem2 s.handle analyzed
    match list_to_vec nl with
    | .error err => (.error err, [.analyze analyzed.ptr, .stem2 nl.ptr])
    | .ok strings =>
      (.ok strings,
       [.analyze analyzed.ptr, .stem2 nl.ptr, .free_list analyzed.ptr analyzed.len])

/-- `SpellChecker::generate` (src/spell_checker.rs:262): both words are
converted before the native call; the free call is commented out. -/
def SpellChecker.generate (e : Engine) (s : SpellChecker)
    (word1 word2 : List Nat) : Except Error (List (List Nat)) × List Ev :=
  match cstring word1 with
  | .error err => (.error err, [])
  | .ok w1 =>
    match cstring word2 with
    | .error err => (.error err, [])
    | .ok w2 =>
      let nl := e.Hunspell_generate s.handle w1 w2
      (list_to_vec nl, [.generate nl.ptr])

/-- `SpellChecker::extended_generate` (src/spell_checker.rs:280): both
words converted first, then analyze, then `Hunspell_generate2`; only the
intermediate analysis list is freed, and only on the success path. -/
def SpellChecker.extended_generate (e : Engine) (s : SpellChecker)
    (word1 word2 : List Nat) : Except Error (List (List Nat)) × List Ev :=
  match cstring word1 with
  | .error err => (.error err, [])
  | .ok w1 =>
    match cstring word2 with
    | .error err => (.error err, [])
    | .ok w2 =>
      let analyzed := e.Hunspell_analyze s.handle w1
      let nl := e.Hunspell_generate2 s.handle w2 analyzed
      match list_to_vec nl with
      | .error err => (.error err, [.analyze analyzed.ptr, .generate2 nl.ptr])
      | .ok strings =>
        (.ok strings,
         [.analyze analyzed.ptr, .generate2 nl.ptr,
          .free_list analyzed.ptr analyzed.len])

/-- Sequential replay of `add_dictionary` over a list of paths, stopping
at the first error. This is the loop shared by `impl Clone`
(src/spell_checker.rs:314) and both serde visitors (src/serde.rs:52,108). -/
def SpellChecker.add_all (fs : FS) (e : Engine) :
    SpellChecker → List (List Nat) → Except Error SpellChecker
  | s, [] => .ok s
  | s, d :: ds =>
    let r := (SpellChecker.add_dictionary fs e s d).1
    match r.2 with
    | .error err => .error err
    | .ok _ => SpellChecker.add_all fs e r.1 ds

/-- `impl Clone for SpellChecker` (src/spell_checker.rs:302): re-runs
`new` / `new_with_key` on the stored paths and key, then replays
`add_dictionary` over the stored additional dictionaries in order; every
fallible step goes through `expect`, so any failure panics (aborts the
process) — modelled by `CloneOutcome.panics`. -/
def SpellChecker.clone (fs : FS) (e : Engine) (s : SpellChecker) : CloneOutcome :=
  match s.key with
  | some k =>
    match (SpellChecker.new_with_key fs e s.affix s.dictionary k).1 with
    | .error _ => .panics
    | .ok c =>
      match SpellChecker.add_all fs e c s.additional_dictionaries with
      | .error _ => .panics
      | .ok c2 => .ok c2
  | none =>
    match (SpellChecker.new fs e s.affix s.dictionary).1 with
    | .error _ => .panics
    | .ok c =>
      match SpellChecker.add_all fs e c s.additional_dictionaries with
      | .error _ => .panics
      | .ok c2 => .ok c2

/-- The serialized form emitted for a session: the four configuration
fields; `handle` carries `#[serde(skip)]` and is absent by construction. -/
def SpellChecker.serialize (s : SpellChecker) : SerializedSpellChecker :=
  { affix := s.affix, dictionary := s.dictionary,
    additional_dictionaries := s.additional_dictionaries, key := s.key }

/-- `impl Deserialize for SpellChecker` (src/serde.rs:9): reconstructs a
session by calling `new` / `new_with_key` on the deserialized paths and
key, then replaying `add_dictionary` over the deserialized additional
dictionaries; any failure is surfaced as a deserialization error. -/
def SpellChecker.deserialize (fs : FS) (e : Engine) (f : SerializedSpellChecker) :
    Except Error SpellChecker :=
  match (match f.key with
         | some k => (SpellChecker.new_with_key fs e f.affix f.dictionary k).1
         | none => (SpellChecker.new fs e f.affix f.dictionary).1) with
  | .error err => .error err
  | .ok c => SpellChecker.add_all fs e c f.additional_dictionaries

/-- A filesystem on which exactly the paths `[97]` ("a") and `[98]` ("b")
are regular files. -/
def fsAB : FS where
  is_file := fun p => decide (p = [97] ∨ p = [98])
  is_file_no_nul := by
    intro p hp
    rw [decide_eq_true_eq] at hp
    rcases hp with h | h <;> subst h <;> decide

/-- A filesystem with no files at all. -/
def fsEmpty : FS where
  is_file := fun _ => false
  is_file_no_nul := by intro p hp; cases hp

/-- An all-null NativeList value for engine fixtures. -/
def nullNativeList : NativeList where
  ptr := 0
  cells := fun _ => none
  len := 0

/-- An engine whose construction calls return the null handle and whose
other calls return zero statuses and null lists. -/
def engNull : Engine where
  Hunspell_create := fun _ _ => 0
  Hunspell_create_key := fun _ _ _ => 0
  Hunspell_add_dic := fun _ _ => 0
  Hunspell_add := fun _ _ => 0
  Hunspell_add_with_affix := fun _ _ _ => 0
  Hunspell_remove := fun _ _ => 0
  Hunspell_spell := fun _ _ => 0
  Hunspell_suggest := fun _ _ => nullNativeList
  Hunspell_analyze := fun _ _ => nullNativeList
  Hunspell_stem := fun _ _ => nullNativeList
  Hunspell_stem2 := fun _ _ => nullNativeList
  Hunspell_generate := fun _ _ _ => nullNativeList
  Hunspell_generate2 := fun _ _ _ => nullNativeList

/-- An engine whose `Hunspell_add_dic` reports failure (nonzero status). -/
def engFail : Engine where
  Hunspell_create := fun _ _ => 1
  Hunspell_create_key := fun _ _ _ => 1
  Hunspell_add_dic := fun _ _ => 1
  Hunspell_add := fun _ _ => 0
  Hunspell_add_with_affix := fun _ _ _ => 0
  Hunspell_remove := fun _ _ => 0
  Hunspell_spell := fun _ _ => 0
  Hunspell_suggest := fun _ _ => nullNativeList
  Hunspell_analyze := fun _ _ => nullNativeList
  Hunspell_stem := fun _ _ => nullNativeList
  Hunspell_stem2 := fun _ _ => nullNativeList
  Hunspell_generate := fun _ _ _ => nullNativeList
  Hunspell_generate2 := fun _ _ _ => nullNativeList

/-- Cell map whose every element holds the bytes of "cat". -/
def cellsCat : Nat → Option (List Nat) := fun _ => some [99, 97, 116]

/-- An engine whose query calls return one-element lists at distinct
pointer values (suggest 5, stem 6, analyze 7, stem2 8, generate 9,
generate2 10), so frees can be matched to the lists they release. -/
def engList : Engine where
  Hunspell_create := fun _ _ => 1
  Hunspell_create_key := fun _ _ _ => 1
  Hunspell_add_dic := fun _ _ => 0
  Hunspell_add := fun _ _ => 0
  Hunspell_add_with_affix := fun _ _ _ => 0
  Hunspell_remove := fun _ _ => 0
  Hunspell_spell := fun _ _ => 1
  Hunspell_suggest := fun _ _ => { ptr := 5, cells := cellsCat, len := 1 }
  Hunspell_analyze := fun _ _ => { ptr := 7, cells := cellsCat, len := 1 }
  Hunspell_stem := fun _ _ => { ptr := 6, cells := cellsCat, len := 1 }
  Hunspell_stem2 := fun _ _ => { ptr := 8, cells := cellsCat, len := 1 }
  Hunspell_generate := fun _ _ _ => { ptr := 9, cells := cellsCat, len := 1 }
  Hunspell_generate2 := fun _ _ _ => { ptr := 10, cells := cellsCat, len := 1 }

/-- A session over the fixture files, with no additional dictionaries. -/
def sAB : SpellChecker where
  affix := [97]
  dictionary := [98]
  additional_dictionaries := []
  key := none
  handle := 1

/-- A session already holding 20 additional dictionaries. -/
def s20 : SpellChecker where
  affix := [97]
  dictionary := [98]
  additional_dictionaries := List.replicate 20 [98]
  key := none
  handle := 1

/-- A filesystem on which only the path `[97]` ("a") is a regular file,
so the fixture session's dictionary `[98]` is missing. -/
def fsA : FS where
  is_file := fun p => decide (p = [97])
  is_file_no_nul := by
    intro p hp
    rw [decide_eq_true_eq] at hp
    subst hp
    decide

/-- A session over the fixture files that also recorded one additional
dictionary `[99]` ("c"), which exists on no fixture filesystem. -/
def sExtra : SpellChecker where
  affix := [97]
  dictionary := [98]
  additional_dictionaries := [[99]]
  key := none
  handle := 1

theorem decodeCells_ok (cells : Nat → Option (List Nat)) (n : Nat) :
    ∀ i : Nat,
      (∀ j, j < n → ∃ b, cells (i + j) = some b ∧ isValidUtf8 b = true) →
      decodeCells cells i n =
        .ok ((List.range n).map (fun j => (cells (i + j)).getD [])) := by
  induction n with
  | zero => intro i _; simp [decodeCells]
  | succ n ih =>
    intro i h
    obtain ⟨b, hb, hv⟩ := h 0 n.succ_pos
    rw [Nat.add_zero] at hb
    have hrest := ih (i + 1) (fun j hj => by
      obtain ⟨c, hc, hvc⟩ := h (j + 1) (Nat.succ_lt_succ hj)
      refine ⟨c, ?_, hvc⟩
      rw [show i + 1 + j = i + (j + 1) by omega]
      exact hc)
    rw [decodeCells, hb]
    simp only [hv, if_true, hrest]
    rw [List.range_succ_eq_map, List.map_cons, List.map_map]
    simp only [Nat.add_zero, hb, Option.getD_some]
    congr 1
    congr 1
    apply List.map_congr_left
    intro j _
    simp only [Function.comp_apply, Nat.succ_eq_add_one]
    rw [show i + (j + 1) = i + 1 + j by omega]

theorem decodeCells_err_at (cells : Nat → Option (List Nat)) (n : Nat) :
    ∀ i k : Nat, k < n →
      (∀ j, j < k → ∃ b, cells (i + j) = some b ∧ isValidUtf8 b = true) →
      ((cells (i + k) = none → decodeCells cells i n = .error .NullPtr) ∧
       (∀ b, cells (i + k) = some b → isValidUtf8 b = false →
         decodeCells cells i n = .error .Utf8Error)) := by
  induction n with
  | zero => intro i k hk; omega
  | succ n ih =>
    intro i k hk hprev
    cases k with
    | zero =>
      constructor
      · intro hnone
        rw [Nat.add_zero] at hnone
        rw [decodeCells, hnone]
      · intro b hsome hbad
        rw [Nat.add_zero] at hsome
        rw [decodeCells, hsome]
        simp [hbad]
    | succ k' =>
      obtain ⟨b0, hb0, hv0⟩ := hprev 0 k'.succ_pos
      rw [Nat.add_zero] at hb0
      have hshift : ∀ j, j < k' → ∃ b, cells (i + 1 + j) = some b ∧ isValidUtf8 b = true := by
        intro j hj
        obtain ⟨c, hc, hvc⟩ := hprev (j + 1) (Nat.succ_lt_succ hj)
        refine ⟨c, ?_, hvc⟩
        rw [show i + 1 + j = i + (j + 1) by omega]
        exact hc
      have ihk := ih (i + 1) k' (Nat.lt_of_succ_lt_succ hk) hshift
      have harith : i + 1 + k' = i + (k' + 1) := by omega
      constructor
      · intro hnone
        rw [decodeCells, hb0]
        simp only [hv0, if_true]
        rw [ihk.1 (by rw [harith]; exact hnone)]
      · intro b hsome hbad
        rw [decodeCells, hb0]
        simp only [hv0, if_true]
        rw [ihk.2 b (by rw [harith]; exact hsome) hbad]

theorem decodeCells_congr (cells cells2 : Nat → Option (List Nat)) (n : Nat) :
    ∀ i : Nat, (∀ j, j < n → cells (i + j) = cells2 (i + j)) →
      decodeCells cells i n = decodeCells cells2 i n := by
  induction n with
  | zero => intro i _; simp [decodeCells]
  | succ n ih =>
    intro i h
    have h0 : cells i = cells2 i := by
      have := h 0 n.succ_pos
      rwa [Nat.add_zero] at this
    have ih2 := ih (i + 1) (fun j hj => by
      have := h (j + 1) (Nat.succ_lt_succ hj)
      rwa [show i + (j + 1) = i + 1 + j by omega] at this)
    rw [decodeCells, decodeCells, h0, ih2]

theorem cstring_ok_of_not_mem {p : List Nat} (h : ¬ 0 ∈ p) : cstring p = .ok p := by
  simp [cstring, h]

theorem cstring_of_file (fs : FS) {p : List Nat} (h : fs.is_file p = true) :
    cstring p = .ok p :=
  cstring_ok_of_not_mem (fs.is_file_no_nul p h)

theorem add_dictionary_full (fs : FS) (e : Engine) (s : SpellChecker) (p : List Nat)
    (h : s.additional_dictionaries.length = 20) :
    SpellChecker.add_dictionary fs e s p =
      ((s, .error (.CannotAddMoreDictionaries p)), []) := by
  simp [SpellChecker.add_dictionary, h]

theorem add_dictionary_ok (fs : FS) (e : Engine) (s : SpellChecker) (p : List Nat)
    (hlen : s.additional_dictionaries.length ≠ 20) (hf : fs.is_file p = true) :
    SpellChecker.add_dictionary fs e s p =
      (({ s with additional_dictionaries := s.additional_dictionaries ++ [p] },
        .ok (e.Hunspell_add_dic s.handle p == 0)), [.add_dic]) := by
  simp [SpellChecker.add_dictionary, hlen, hf, cstring_of_file fs hf]

theorem add_dictionary_no_file (fs : FS) (e : Engine) (s : SpellChecker) (p : List Nat)
    (hlen : s.additional_dictionaries.length ≠ 20) (hf : fs.is_file p = false) :
    SpellChecker.add_dictionary fs e s p =
      ((s, .error (.DictionaryFileIsNoFile p)), []) := by
  simp [SpellChecker.add_dictionary, hlen, hf]

theorem add_dictionary_error_state (fs : FS) (e : Engine) (s : SpellChecker)
    (p : List Nat) (err : Error)
    (h : (SpellChecker.add_dictionary fs e s p).1.2 = .error err) :
    (SpellChecker.add_dictionary fs e s p).1.1 = s := by
  by_cases h20 : s.additional_dictionaries.length = 20
  · rw [add_dictionary_full fs e s p h20]
  · by_cases hf : fs.is_file p = true
    · rw [add_dictionary_ok fs e s p h20 hf] at h
      exact absurd h (by simp)
    · rw [add_dictionary_no_file fs e s p h20 (by simpa using hf)]

theorem add_dictionary_state_length (fs : FS) (e : Engine) (s : SpellChecker)
    (p : List Nat) (h : s.additional_dictionaries.length ≤ 20) :
    ((SpellChecker.add_dictionary fs e s p).1.1).additional_dictionaries.length ≤ 20 := by
  by_cases h20 : s.additional_dictionaries.length = 20
  · rw [add_dictionary_full fs e s p h20]
    exact h
  · by_cases hf : fs.is_file p = true
    · rw [add_dictionary_ok fs e s p h20 hf]
      simp only [List.length_append, List.length_singleton]
      omega
    · rw [add_dictionary_no_file fs e s p h20 (by simpa using hf)]
      exact h

theorem add_all_ok (fs : FS) (e : Engine) (ds : List (List Nat)) :
    ∀ s : SpellChecker,
      s.additional_dictionaries.length + ds.length ≤ 20 →
      (∀ p ∈ ds, fs.is_file p = true) →
      SpellChecker.add_all fs e s ds =
        .ok { s with additional_dictionaries := s.additional_dictionaries ++ ds } := by
  induction ds with
  | nil => intro s _ _; simp [SpellChecker.add_all]
  | cons d ds ih =>
    intro s hlen hfiles
    have hne : s.additional_dictionaries.length ≠ 20 := by
      simp only [List.length_cons] at hlen
      omega
    have hf : fs.is_file d = true := hfiles d (List.mem_cons_self d ds)
    have hih := ih { s with additional_dictionaries := s.additional_dictionaries ++ [d] }
      (by simp at hlen ⊢; omega)
      (fun p hp => hfiles p (List.mem_cons_of_mem d hp))
    simp only [SpellChecker.add_all, add_dictionary_ok fs e s d hne hf, hih]
    congr 1
    simp

theorem add_all_length_le (fs : FS) (e : Engine) (ds : List (List Nat)) :
    ∀ s c : SpellChecker,
      s.additional_dictionaries.length ≤ 20 →
      SpellChecker.add_all fs e s ds = .ok c →
      c.additional_dictionaries.length ≤ 20 := by
  induction ds with
  | nil =>
    intro s c h hok
    simp only [SpellChecker.add_all, Except.ok.injEq] at hok
    exact hok ▸ h
  | cons d ds ih =>
    intro s c h hok
    simp only [SpellChecker.add_all] at hok
    rcases hr : (SpellChecker.add_dictionary fs e s d).1.2 with err | b
    · rw [hr] at hok
      exact absurd hok (by simp)
    · rw [hr] at hok
      exact ih _ c (add_dictionary_state_length fs e s d h) hok

theorem add_dictionary_err_of_missing (fs : FS) (e : Engine) (s : SpellChecker)
    (p : List Nat) (hp : fs.is_file p = false) :
    ∃ err, (SpellChecker.add_dictionary fs e s p).1.2 = .error err := by
  by_cases h20 : s.additional_dictionaries.length = 20
  · exact ⟨.CannotAddMoreDictionaries p, by rw [add_dictionary_full fs e s p h20]⟩
  · exact ⟨.DictionaryFileIsNoFile p, by rw [add_dictionary_no_file fs e s p h20 hp]⟩

theorem add_all_err_of_missing (fs : FS) (e : Engine) (ds : List (List Nat)) :
    ∀ s : SpellChecker, (∃ p, p ∈ ds ∧ fs.is_file p = false) →
      ∃ err, SpellChecker.add_all fs e s ds = .error err := by
  induction ds with
  | nil =>
    rintro s ⟨p, hp, _⟩
    exact absurd hp (List.not_mem_nil p)
  | cons d ds ih =>
    rintro s ⟨p, hp, hpf⟩
    rcases hr : (SpellChecker.add_dictionary fs e s d).1.2 with err | b
    · exact ⟨err, by simp only [SpellChecker.add_all, hr]⟩
    · rcases List.mem_cons.mp hp with rfl | hp2
      · obtain ⟨err, herr⟩ := add_dictionary_err_of_missing fs e s p hpf
        rw [hr] at herr
        exact absurd herr (by simp)
      · obtain ⟨err, herr⟩ :=
          ih (SpellChecker.add_dictionary fs e s d).1.1 ⟨p, hp2, hpf⟩
        exact ⟨err, by simp only [SpellChecker.add_all, hr, herr]⟩

theorem check_paths_err_of_dict_missing (fs : FS) (a d : List Nat)
    (hd : fs.is_file d = false) :
    ∃ err, check_paths fs a d = .error err := by
  by_cases ha : fs.is_file a = true
  · exact ⟨.DictionaryFileIsNoFile d, by simp [check_paths, ha, hd]⟩
  · exact ⟨.AffixFileIsNoFile a, by simp [check_paths, ha]⟩

theorem new_ok (fs : FS) (e : Engine) (a d : List Nat)
    (ha : fs.is_file a = true) (hd : fs.is_file d = true) :
    SpellChecker.new fs e a d =
      (.ok { affix := a, dictionary := d, additional_dictionaries := [],
             key := none, handle := e.Hunspell_create a d }, [.create]) := by
  simp [SpellChecker.new, check_paths, ha, hd,
        cstring_of_file fs ha, cstring_of_file fs hd]

theorem new_with_key_ok (fs : FS) (e : Engine) (a d k : List Nat)
    (ha : fs.is_file a = true) (hd : fs.is_file d = true) (hk : ¬ 0 ∈ k) :
    SpellChecker.new_with_key fs e a d k =
      (.ok { affix := a, dictionary := d, additional_dictionaries := [],
             key := some k, handle := e.Hunspell_create_key a d k }, [.create_key]) := by
  simp [SpellChecker.new_with_key, check_paths, ha, hd,
        cstring_of_file fs ha, cstring_of_file fs hd, cstring_ok_of_not_mem hk]

theorem new_ok_shape (fs : FS) (e : Engine) (a d : List Nat) (s : SpellChecker)
    (h : (SpellChecker.new fs e a d).1 = .ok s) :
    s = { affix := a, dictionary := d, additional_dictionaries := [],
          key := none, handle := e.Hunspell_create a d } := by
  by_cases ha : fs.is_file a = true
  · by_cases hd : fs.is_file d = true
    · rw [new_ok fs e a d ha hd] at h
      simp only [Except.ok.injEq] at h
      exact h.symm
    · simp [SpellChecker.new, check_paths, ha, hd] at h
  · simp [SpellChecker.new, check_paths, ha] at h

theorem new_with_key_ok_shape (fs : FS) (e : Engine) (a d k : List Nat) (s : SpellChecker)
    (h : (SpellChecker.new_with_key fs e a d k).1 = .ok s) :
    s = { affix := a, dictionary := d, additional_dictionaries := [],
          key := some k, handle := e.Hunspell_create_key a d k } := by
  by_cases ha : fs.is_file a = true
  · by_cases hd : fs.is_file d = true
    · by_cases hk : 0 ∈ k
      · have hna := fs.is_file_no_nul a ha
        have hnd := fs.is_file_no_nul d hd
        simp [SpellChecker.new_with_key, check_paths, ha, hd, cstring,
              hna, hnd, hk] at h
      · rw [new_with_key_ok fs e a d k ha hd hk] at h
        simp only [Except.ok.injEq] at h
        exact h.symm
    · simp [SpellChecker.new_with_key, check_paths, ha, hd] at h
  · simp [SpellChecker.new_with_key, check_paths, ha] at h

/-- C1 (counterexample): with an engine whose construction call returns
the null handle, `SpellChecker::new` on two existing files returns `Ok`
with `handle = 0`: no failure is raised for the null handle and the
null-handle session is handed to the caller, contradicting the claim
that construction fails on a null handle and never returns such a
session. -/
theorem C1_null_handle_session_returned :
    (SpellChecker.new fsAB engNull [97] [98]).1 =
      .ok { affix := [97], dictionary := [98], additional_dictionaries := [],
            key := none, handle := 0 } := by
  decide

/-- C1 (amended): construction succeeds whenever both paths are existing
files (and, for the keyed variant, the key has no embedded NUL), storing
whatever handle the native construction call returned without inspecting
it — the error taxonomy has no `EngineConstructionFailed` variant and a
null handle is stored and returned like any other. -/
theorem C1_construction_never_checks_handle (fs : FS) (e : Engine)
    (a d k : List Nat) (ha : fs.is_file a = true) (hd : fs.is_file d = true)
    (hk : ¬ 0 ∈ k) :
    (SpellChecker.new fs e a d).1 =
      .ok { affix := a, dictionary := d, additional_dictionaries := [],
            key := none, handle := e.Hunspell_create a d } ∧
    (SpellChecker.new_with_key fs e a d k).1 =
      .ok { affix := a, dictionary := d, additional_dictionaries := [],
            key := some k, handle := e.Hunspell_create_key a d k } :=
  ⟨by rw [new_ok fs e a d ha hd], by rw [new_with_key_ok fs e a d k ha hd hk]⟩

/-- C1 (witness): the amended construction contract evaluated on the
fixture filesystem and the null-returning engine. -/
theorem C1_construction_witness :
    (SpellChecker.new fsAB engNull [97] [98]).1 =
      .ok { affix := [97], dictionary := [98], additional_dictionaries := [],
            key := none, handle := engNull.Hunspell_create [97] [98] } ∧
    (SpellChecker.new_with_key fsAB engNull [97] [98] [107]).1 =
      .ok { affix := [97], dictionary := [98], additional_dictionaries := [],
            key := some [107],
            handle := engNull.Hunspell_create_key [97] [98] [107] } :=
  C1_construction_never_checks_handle fsAB engNull [97] [98] [107]
    (by decide) (by decide) (by decide)

/-- C2 (counterexample): `list_to_vec` checks the list pointer before the
count, so a null pointer with count 0 yields `NullPtr` instead of the
empty sequence the claim requires, and a null pointer with a negative
count yields `NullPtr` instead of `NegativeListLength`. -/
theorem C2_null_check_precedes_count_checks :
    list_to_vec { ptr := 0, cells := fun _ => none, len := 0 } = .error .NullPtr ∧
    list_to_vec { ptr := 0, cells := fun _ => none, len := 0 } ≠ .ok [] ∧
    list_to_vec { ptr := 0, cells := fun _ => none, len := -1 } = .error .NullPtr := by
  exact ⟨rfl, by decide, rfl⟩

/-- C2 (amended): decoding fails with `NullPtr` whenever the list pointer
is null, regardless of the count (the null check precedes the count
checks); with a non-null pointer, a negative count fails with
`NegativeListLength` and a zero count returns the empty sequence without
dereferencing any element. -/
theorem C2_header_checks (cells : Nat → Option (List Nat)) (len : Int) (q : Nat) :
    list_to_vec { ptr := 0, cells := cells, len := len } = .error .NullPtr ∧
    (q ≠ 0 → len < 0 →
      list_to_vec { ptr := q, cells := cells, len := len } =
        .error (.NegativeListLength len)) ∧
    (q ≠ 0 → list_to_vec { ptr := q, cells := cells, len := 0 } = .ok []) := by
  refine ⟨by simp [list_to_vec], ?_, ?_⟩
  · intro hq hl
    simp [list_to_vec, hq, hl]
  · intro hq
    simp [list_to_vec, hq]

/-- C2 (witness): the amended header checks evaluated at concrete lists. -/
theorem C2_header_checks_witness :
    list_to_vec { ptr := 1, cells := fun _ => none, len := -1 } =
      .error (.NegativeListLength (-1)) ∧
    list_to_vec { ptr := 1, cells := fun _ => none, len := 0 } = .ok [] :=
  ⟨(C2_header_checks (fun _ => none) (-1) 1).2.1 (by decide) (by decide),
   (C2_header_checks (fun _ => none) 0 1).2.2 (by decide)⟩

/-- C4 (counterexample): with an engine whose `Hunspell_add_dic` reports
failure, `add_dictionary` on an existing path returns `Ok(false)` yet
still appends the path to `additional_dictionaries`, contradicting the
claim that the path is appended exactly when the native call succeeds. -/
theorem C4_path_appended_despite_native_failure :
    SpellChecker.add_dictionary fsAB engFail sAB [98] =
      (({ affix := [97], dictionary := [98], additional_dictionaries := [[98]],
          key := none, handle := 1 }, .ok false), [.add_dic]) := by
  decide

/-- C4 (amended): below the 20-dictionary cap and for an existing path,
`add_dictionary` returns `Ok` of the native success boolean and appends
the path regardless of that boolean; on every error return (in
particular `DictionaryFileIsNoFile` for a nonexistent path) the
additional-dictionary list is unchanged. -/
theorem C4_add_dictionary_behaviour (fs : FS) (e : Engine) (s : SpellChecker)
    (p : List Nat) :
    (s.additional_dictionaries.length < 20 → fs.is_file p = true →
      SpellChecker.add_dictionary fs e s p =
        (({ s with additional_dictionaries := s.additional_dictionaries ++ [p] },
          .ok (e.Hunspell_add_dic s.handle p == 0)), [.add_dic])) ∧
    (∀ err, (SpellChecker.add_dictionary fs e s p).1.2 = .error err →
      (SpellChecker.add_dictionary fs e s p).1.1 = s) ∧
    (s.additional_dictionaries.length < 20 → fs.is_file p = false →
      SpellChecker.add_dictionary fs e s p =
        ((s, .error (.DictionaryFileIsNoFile p)), [])) := by
  refine ⟨?_, add_dictionary_error_state fs e s p, ?_⟩
  · intro h hf
    exact add_dictionary_ok fs e s p (by omega) hf
  · intro h hf
    exact add_dictionary_no_file fs e s p (by omega) hf

/-- C4 (witness): the amended `add_dictionary` contract evaluated on the
fixture filesystem, both for a successful native call on an existing
path and for a nonexistent path. -/
theorem C4_add_dictionary_witness :
    SpellChecker.add_dictionary fsAB engNull sAB [98] =
      (({ sAB with additional_dictionaries := [[98]] },
        .ok (engNull.Hunspell_add_dic sAB.handle [98] == 0)), [.add_dic]) ∧
    SpellChecker.add_dictionary fsAB engNull sAB [99] =
      ((sAB, .error (.DictionaryFileIsNoFile [99])), []) :=
  ⟨(C4_add_dictionary_behaviour fsAB engNull sAB [98]).1 (by decide) (by decide),
   (C4_add_dictionary_behaviour fsAB engNull sAB [99]).2.2 (by decide) (by decide)⟩

/-- C10: `add_dictionary` tests the 20-dictionary cap before the
file-existence check, so on a session holding 20 additional dictionaries
it fails with `CannotAddMoreDictionaries` even when the path does not
exist — the `DictionaryFileIsNoFile` check is never reached and the
state is unchanged. -/
theorem C10_cap_checked_before_existence (fs : FS) (e : Engine)
    (s : SpellChecker) (p : List Nat)
    (hlen : s.additional_dictionaries.length = 20)
    (_hp : fs.is_file p = false) :
    SpellChecker.add_dictionary fs e s p =
      ((s, .error (.CannotAddMoreDictionaries p)), []) :=
  add_dictionary_full fs e s p hlen

/-- C10 (witness): the cap-first behaviour evaluated on a session with
20 additional dictionaries and a path that exists nowhere. -/
theorem C10_cap_witness :
    SpellChecker.add_dictionary fsEmpty engNull s20 [99] =
      ((s20, .error (.CannotAddMoreDictionaries [99])), []) :=
  C10_cap_checked_before_existence fsEmpty engNull s20 [99] (by decide) (by decide)

/-- C6: `additional_dictionaries.len() <= 20` is an invariant — both
constructors establish it, `add_dictionary` preserves it (it is the only
operation that touches the list), and `clone` and deserialization only
produce sessions satisfying it; at exactly 20 entries `add_dictionary`
fails with `CannotAddMoreDictionaries` (the spec's `TooManyDictionaries`)
without mutating state, so the length is still 20 afterwards. -/
theorem C6_cap_invariant :
    (∀ (fs : FS) (e : Engine) (a d : List Nat) (s : SpellChecker),
      (SpellChecker.new fs e a d).1 = .ok s →
      s.additional_dictionaries.length ≤ 20) ∧
    (∀ (fs : FS) (e : Engine) (a d k : List Nat) (s : SpellChecker),
      (SpellChecker.new_with_key fs e a d k).1 = .ok s →
      s.additional_dictionaries.length ≤ 20) ∧
    (∀ (fs : FS) (e : Engine) (s : SpellChecker) (p : List Nat),
      s.additional_dictionaries.length ≤ 20 →
      ((SpellChecker.add_dictionary fs e s p).1.1).additional_dictionaries.length ≤ 20) ∧
    (∀ (fs : FS) (e : Engine) (s : SpellChecker) (c : SpellChecker),
      SpellChecker.clone fs e s = .ok c →
      c.additional_dictionaries.length ≤ 20) ∧
    (∀ (fs : FS) (e : Engine) (f : SerializedSpellChecker) (c : SpellChecker),
      SpellChecker.deserialize fs e f = .ok c →
      c.additional_dictionaries.length ≤ 20) ∧
    (∀ (fs : FS) (e : Engine) (s : SpellChecker) (p : List Nat),
      s.additional_dictionaries.length = 20 →
      SpellChecker.add_dictionary fs e s p =
        ((s, .error (.CannotAddMoreDictionaries p)), [])) := by
  refine ⟨?_, ?_, ?_, ?_, ?_, ?_⟩
  · intro fs e a d s h
    rw [new_ok_shape fs e a d s h]
    simp
  · intro fs e a d k s h
    rw [new_with_key_ok_shape fs e a d k s h]
    simp
  · intro fs e s p h
    exact add_dictionary_state_length fs e s p h
  · intro fs e s c h
    unfold SpellChecker.clone at h
    rcases hk : s.key with _ | k <;> simp only [hk] at h
    · rcases hnew : (SpellChecker.new fs e s.affix s.dictionary).1 with err | c0 <;>
        simp only [hnew] at h
      · exact absurd h (by simp)
      · rcases hadd : SpellChecker.add_all fs e c0 s.additional_dictionaries with err | c2 <;>
          simp only [hadd] at h
        · exact absurd h (by simp)
        · have hc0 : c0.additional_dictionaries.length ≤ 20 := by
            rw [new_ok_shape fs e s.affix s.dictionary c0 hnew]
            simp
          have hc2 := add_all_length_le fs e s.additional_dictionaries c0 c2 hc0 hadd
          simp only [CloneOutcome.ok.injEq] at h
          exact h ▸ hc2
    · rcases hnew : (SpellChecker.new_with_key fs e s.affix s.dictionary k).1 with err | c0 <;>
        simp only [hnew] at h
      · exact absurd h (by simp)
      · rcases hadd : SpellChecker.add_all fs e c0 s.additional_dictionaries with err | c2 <;>
          simp only [hadd] at h
        · exact absurd h (by simp)
        · have hc0 : c0.additional_dictionaries.length ≤ 20 := by
            rw [new_with_key_ok_shape fs e s.affix s.dictionary k c0 hnew]
            simp
          have hc2 := add_all_length_le fs e s.additional_dictionaries c0 c2 hc0 hadd
          simp only [CloneOutcome.ok.injEq] at h
          exact h ▸ hc2
  · intro fs e f c h
    unfold SpellChecker.deserialize at h
    rcases hk : f.key with _ | k <;> simp only [hk] at h
    · rcases hnew : (SpellChecker.new fs e f.affix f.dictionary).1 with err | c0 <;>
        simp only [hnew] at h
      · exact absurd h (by simp)
      · have hc0 : c0.additional_dictionaries.length ≤ 20 := by
          rw [new_ok_shape fs e f.affix f.dictionary c0 hnew]
          simp
        exact add_all_length_le fs e f.additional_dictionaries c0 c hc0 h
    · rcases hnew : (SpellChecker.new_with_key fs e f.affix f.dictionary k).1 with err | c0 <;>
        simp only [hnew] at h
      · exact absurd h (by simp)
      · have hc0 : c0.additional_dictionaries.length ≤ 20 := by
          rw [new_with_key_ok_shape fs e f.affix f.dictionary k c0 hnew]
          simp
        exact add_all_length_le fs e f.additional_dictionaries c0 c hc0 h
  · intro fs e s p h
    exact add_dictionary_full fs e s p h

/-- C6 (witness): the cap behaviour evaluated on a session holding 20
additional dictionaries — the call fails with
`CannotAddMoreDictionaries` and leaves the session untouched. -/
theorem C6_cap_witness :
    SpellChecker.add_dictionary fsAB engNull s20 [98] =
      ((s20, .error (.CannotAddMoreDictionaries [98])), []) ∧
    s20.additional_dictionaries.length = 20 :=
  ⟨C6_cap_invariant.2.2.2.2.2 fsAB engNull s20 [98] (by decide), by decide⟩

/-- C3 (counterexample): on a filesystem where the session's files no
longer exist, `clone` panics through its `expect` calls (aborting the
process) instead of surfacing a typed, inspectable failure value — the
`impl Clone` doc comment itself documents the panic. -/
theorem C3_clone_panics_on_missing_file :
    SpellChecker.clone fsEmpty engNull sAB = .panics := by
  decide

/-- C3 (amended): `clone` produces an independent session by re-running
construction against the same stored paths and key and replaying
`add_dictionary` over the stored additional dictionaries in original
order (the resulting session equals the original except for a handle
obtained from a fresh native construction call); but when any stored
path no longer exists — the affix file, the dictionary file, or any
additional dictionary — `clone` panics, aborting the process as
documented, rather than returning a fallible value. -/
theorem C3_clone_replays_configuration (fs : FS) (e : Engine) (s : SpellChecker) :
    (fs.is_file s.affix = true → fs.is_file s.dictionary = true →
     (∀ p ∈ s.additional_dictionaries, fs.is_file p = true) →
     s.additional_dictionaries.length ≤ 20 →
     (∀ k, s.key = some k → ¬ 0 ∈ k) →
     SpellChecker.clone fs e s =
       .ok { s with handle :=
               match s.key with
               | some k => e.Hunspell_create_key s.affix s.dictionary k
               | none => e.Hunspell_create s.affix s.dictionary }) ∧
    (fs.is_file s.affix = false → SpellChecker.clone fs e s = .panics) ∧
    (fs.is_file s.dictionary = false → SpellChecker.clone fs e s = .panics) ∧
    ((∃ p ∈ s.additional_dictionaries, fs.is_file p = false) →
     SpellChecker.clone fs e s = .panics) := by
  refine ⟨?_, ?_, ?_, ?_⟩
  · intro ha hd hds hlen hkey
    obtain ⟨sa, sd, sads, sk, sh⟩ := s
    simp only at ha hd hds hlen hkey ⊢
    rcases sk with _ | k
    · simp only [SpellChecker.clone, new_ok fs e sa sd ha hd]
      rw [add_all_ok fs e sads _ (by simpa using hlen) hds]
      simp
    · have hk0 : ¬ 0 ∈ k := hkey k rfl
      simp only [SpellChecker.clone, new_with_key_ok fs e sa sd k ha hd hk0]
      rw [add_all_ok fs e sads _ (by simpa using hlen) hds]
      simp
  · intro ha
    obtain ⟨sa, sd, sads, sk, sh⟩ := s
    simp only at ha ⊢
    rcases sk with _ | k
    · simp [SpellChecker.clone, SpellChecker.new, check_paths, ha]
    · simp [SpellChecker.clone, SpellChecker.new_with_key, check_paths, ha]
  · intro hd
    obtain ⟨err, herr⟩ := check_paths_err_of_dict_missing fs s.affix s.dictionary hd
    unfold SpellChecker.clone
    rcases hk : s.key with _ | k <;> simp only [hk]
    · simp [SpellChecker.new, herr]
    · simp [SpellChecker.new_with_key, herr]
  · intro hmiss
    unfold SpellChecker.clone
    rcases hk : s.key with _ | k <;> simp only [hk]
    · rcases hnew : (SpellChecker.new fs e s.affix s.dictionary).1 with err | c0
      · simp [hnew]
      · obtain ⟨err2, herr2⟩ :=
          add_all_err_of_missing fs e s.additional_dictionaries c0 hmiss
        simp [hnew, herr2]
    · rcases hnew : (SpellChecker.new_with_key fs e s.affix s.dictionary k).1 with err | c0
      · simp [hnew]
      · obtain ⟨err2, herr2⟩ :=
          add_all_err_of_missing fs e s.additional_dictionaries c0 hmiss
        simp [hnew, herr2]

/-- C3 (witness): the amended clone contract evaluated concretely — a
successful replay with a fresh handle on the fixture filesystem, and a
panic for each kind of missing path: missing affix (empty filesystem),
missing dictionary file (filesystem holding only the affix), and a
missing additional dictionary (fixture filesystem, session that
recorded the nonexistent extra dictionary). -/
theorem C3_clone_witness :
    SpellChecker.clone fsAB engNull sAB =
      .ok { affix := [97], dictionary := [98], additional_dictionaries := [],
            key := none, handle := 0 } ∧
    SpellChecker.clone fsEmpty engNull s20 = .panics ∧
    SpellChecker.clone fsA engNull sAB = .panics ∧
    SpellChecker.clone fsAB engNull sExtra = .panics :=
  ⟨(C3_clone_replays_configuration fsAB engNull sAB).1
     (by decide) (by decide) (by simp [sAB]) (by decide) (by simp [sAB]),
   (C3_clone_replays_configuration fsEmpty engNull s20).2.1 (by decide),
   (C3_clone_replays_configuration fsA engNull sAB).2.2.1 (by decide),
   (C3_clone_replays_configuration fsAB engNull sExtra).2.2.2
     ⟨[99], by decide, by decide⟩⟩

/-- C5 (code evaluation at the failing input): with an engine returning
one-element lists at distinct pointer values, the FFI-call traces show
that `suggest`, `stem` and `generate` never issue `Hunspell_free_list`
for the lists they produced (pointers 5, 6 and 9 — the free calls are
commented out in the source), and `extended_stem` frees only the
intermediate analysis list (pointer 7), never the final stem list
(pointer 8); only `analyze` frees its list. The spec requires every
produced list to be released exactly once through the native
deallocator. -/
theorem C5_query_lists_never_freed :
    (SpellChecker.suggest engList sAB [99, 97, 116]).2 = [Ev.suggest 5] ∧
    (SpellChecker.stem engList sAB [99, 97, 116]).2 = [Ev.stem 6] ∧
    (SpellChecker.generate engList sAB [99, 97, 116] [99, 97, 116]).2 =
      [Ev.generate 9] ∧
    (SpellChecker.extended_stem engList sAB [99, 97, 116]).2 =
      [Ev.analyze 7, Ev.stem2 8, Ev.free_list 7 1] ∧
    (SpellChecker.extended_generate engList sAB [99, 97, 116] [99, 97, 116]).2 =
      [Ev.analyze 7, Ev.generate2 10, Ev.free_list 7 1] ∧
    (SpellChecker.analyze engList sAB [99, 97, 116]).2 =
      [Ev.analyze 7, Ev.free_list 7 1] := by
  decide

/-- C7 (counterexample): a path argument with an embedded NUL byte is
rejected before any native call, but with `AffixFileIsNoFile` — the
file-existence check fires first, because a NUL-containing path is never
an existing file — not with the encoding error the claim names. -/
theorem C7_nul_path_rejected_as_missing_file :
    (SpellChecker.new fsAB engNull [0] [98]).1 = .error (.AffixFileIsNoFile [0]) ∧
    (SpellChecker.new fsAB engNull [0] [98]).1 ≠ .error .NulError ∧
    (SpellChecker.new fsAB engNull [0] [98]).2 = [] := by
  decide

/-- C7 (amended): for every operation, an argument containing an embedded
NUL byte makes the operation return an error while issuing no native
call at all, so the engine never observes malformed input; word and key
arguments fail with the encoding error `NulError`, while path arguments
fail through the file-existence check (a NUL-containing path never names
an existing file) or with `NulError` where no such check precedes. -/
theorem C7_nul_rejected_before_native_call (fs : FS) (e : Engine)
    (s : SpellChecker) (w v a d k p : List Nat) :
    (0 ∈ w → SpellChecker.check e s w = (.error .NulError, [])) ∧
    (0 ∈ w → SpellChecker.add e s w = (.error .NulError, [])) ∧
    (0 ∈ w → SpellChecker.remove e s w = (.error .NulError, [])) ∧
    (0 ∈ w ∨ 0 ∈ v →
      SpellChecker.add_with_affix e s w v = (.error .NulError, [])) ∧
    (0 ∈ w → SpellChecker.suggest e s w = (.error .NulError, [])) ∧
    (0 ∈ w → SpellChecker.analyze e s w = (.error .NulError, [])) ∧
    (0 ∈ w → SpellChecker.stem e s w = (.error .NulError, [])) ∧
    (0 ∈ w → SpellChecker.extended_stem e s w = (.error .NulError, [])) ∧
    (0 ∈ w ∨ 0 ∈ v →
      SpellChecker.generate e s w v = (.error .NulError, [])) ∧
    (0 ∈ w ∨ 0 ∈ v →
      SpellChecker.extended_generate e s w v = (.error .NulError, [])) ∧
    (0 ∈ a ∨ 0 ∈ d →
      (SpellChecker.new fs e a d).2 = [] ∧
      ∃ err, (SpellChecker.new fs e a d).1 = .error err) ∧
    (0 ∈ a ∨ 0 ∈ d ∨ 0 ∈ k →
      (SpellChecker.new_with_key fs e a d k).2 = [] ∧
      ∃ err, (SpellChecker.new_with_key fs e a d k).1 = .error err) ∧
    (0 ∈ p →
      (SpellChecker.add_dictionary fs e s p).2 = [] ∧
      (SpellChecker.add_dictionary fs e s p).1.1 = s ∧
      ∃ err, (SpellChecker.add_dictionary fs e s p).1.2 = .error err) := by
  have hfile_of_nul : ∀ q : List Nat, 0 ∈ q → fs.is_file q = false := by
    intro q hq
    cases hfq : fs.is_file q
    · rfl
    · exact absurd hq (fs.is_file_no_nul q hfq)
  refine ⟨?_, ?_, ?_, ?_, ?_, ?_, ?_, ?_, ?_, ?_, ?_, ?_, ?_⟩
  · intro h; simp [SpellChecker.check, cstring, h]
  · intro h; simp [SpellChecker.add, cstring, h]
  · intro h; simp [SpellChecker.remove, cstring, h]
  · intro h
    by_cases hw : 0 ∈ w
    · simp [SpellChecker.add_with_affix, cstring, hw]
    · have hv : 0 ∈ v := by tauto
      simp [SpellChecker.add_with_affix, cstring, hw, hv]
  · intro h; simp [SpellChecker.suggest, cstring, h]
  · intro h; simp [SpellChecker.analyze, cstring, h]
  · intro h; simp [SpellChecker.stem, cstring, h]
  · intro h; simp [SpellChecker.extended_stem, cstring, h]
  · intro h
    by_cases hw : 0 ∈ w
    · simp [SpellChecker.generate, cstring, hw]
    · have hv : 0 ∈ v := by tauto
      simp [SpellChecker.generate, cstring, hw, hv]
  · intro h
    by_cases hw : 0 ∈ w
    · simp [SpellChecker.extended_generate, cstring, hw]
    · have hv : 0 ∈ v := by tauto
      simp [SpellChecker.extended_generate, cstring, hw, hv]
  · intro h
    by_cases ha : fs.is_file a = true
    · have hd0 : 0 ∈ d := by
        rcases h with h | h
        · exact absurd h (fs.is_file_no_nul a ha)
        · exact h
      have hdf := hfile_of_nul d hd0
      refine ⟨?_, .DictionaryFileIsNoFile d, ?_⟩ <;>
        simp [SpellChecker.new, check_paths, ha, hdf]
    · have haf : fs.is_file a = false := by simpa using ha
      refine ⟨?_, .AffixFileIsNoFile a, ?_⟩ <;>
        simp [SpellChecker.new, check_paths, haf]
  · intro h
    by_cases ha : fs.is_file a = true
    · have hna := fs.is_file_no_nul a ha
      by_cases hd : fs.is_file d = true
      · have hnd := fs.is_file_no_nul d hd
        have hk0 : 0 ∈ k := by tauto
        refine ⟨?_, .NulError, ?_⟩ <;>
          simp [SpellChecker.new_with_key, check_paths, ha, hd, cstring,
                hna, hnd, hk0]
      · have hdf : fs.is_file d = false := by simpa using hd
        refine ⟨?_, .DictionaryFileIsNoFile d, ?_⟩ <;>
          simp [SpellChecker.new_with_key, check_paths, ha, hdf]
    · have haf : fs.is_file a = false := by simpa using ha
      refine ⟨?_, .AffixFileIsNoFile a, ?_⟩ <;>
        simp [SpellChecker.new_with_key, check_paths, haf]
  · intro h
    have hpf := hfile_of_nul p h
    by_cases h20 : s.additional_dictionaries.length = 20
    · rw [add_dictionary_full fs e s p h20]
      exact ⟨rfl, rfl, .CannotAddMoreDictionaries p, rfl⟩
    · rw [add_dictionary_no_file fs e s p h20 hpf]
      exact ⟨rfl, rfl, .DictionaryFileIsNoFile p, rfl⟩

/-- C7 (witness): NUL rejection evaluated on concrete inputs — a word
with an embedded NUL is rejected by `check` and `suggest` with the
encoding error and an empty FFI trace, and a NUL path is rejected by
`add_dictionary` with no native call and no state change. -/
theorem C7_nul_witness :
    SpellChecker.check engNull sAB [97, 0, 98] = (.error .NulError, []) ∧
    SpellChecker.suggest engNull sAB [97, 0, 98] = (.error .NulError, []) ∧
    (SpellChecker.add_dictionary fsAB engNull sAB [0]).2 = [] ∧
    (SpellChecker.add_dictionary fsAB engNull sAB [0]).1.1 = sAB :=
  ⟨(C7_nul_rejected_before_native_call fsAB engNull sAB [97, 0, 98] [] [] [] [] []).1
     (by decide),
   (C7_nul_rejected_before_native_call fsAB engNull sAB [97, 0, 98] [] [] [] [] []).2.2.2.2.1
     (by decide),
   ((C7_nul_rejected_before_native_call fsAB engNull sAB [] [] [] [] [] [0]).2.2.2.2.2.2.2.2.2.2.2.2
     (by decide)).1,
   ((C7_nul_rejected_before_native_call fsAB engNull sAB [] [] [] [] [] [0]).2.2.2.2.2.2.2.2.2.2.2.2
     (by decide)).2.1⟩

/-- C8: for a non-null list pointer and positive count, `list_to_vec`
reads exactly `count` element pointers in order: if every cell up to the
first problematic index is non-null and valid, a null element pointer
fails with `NullPtr` and invalid bytes fail with `Utf8Error` (the
`InvalidEncoding` of the spec); when all cells are non-null and valid,
the result is the in-order sequence of copied byte strings, one per
index below the count; and the result depends only on the first `count`
cells. -/
theorem C8_element_decoding (cells : Nat → Option (List Nat)) (q : Nat)
    (len : Int) (hq : q ≠ 0) (hl : 0 < len) :
    ((∀ i, i < len.toNat → ∃ b, cells i = some b ∧ isValidUtf8 b = true) →
      list_to_vec { ptr := q, cells := cells, len := len } =
        .ok ((List.range len.toNat).map (fun i => (cells i).getD []))) ∧
    (∀ m, m < len.toNat → cells m = none →
      (∀ j, j < m → ∃ b, cells j = some b ∧ isValidUtf8 b = true) →
      list_to_vec { ptr := q, cells := cells, len := len } = .error .NullPtr) ∧
    (∀ m b, m < len.toNat → cells m = some b → isValidUtf8 b = false →
      (∀ j, j < m → ∃ b2, cells j = some b2 ∧ isValidUtf8 b2 = true) →
      list_to_vec { ptr := q, cells := cells, len := len } = .error .Utf8Error) ∧
    (∀ cells2 : Nat → Option (List Nat),
      (∀ i, i < len.toNat → cells i = cells2 i) →
      list_to_vec { ptr := q, cells := cells, len := len } =
        list_to_vec { ptr := q, cells := cells2, len := len }) := by
  have hnn : ¬ len < 0 := by omega
  have hnz : ¬ len = 0 := by omega
  have hl2v : list_to_vec { ptr := q, cells := cells, len := len } =
      decodeCells cells 0 len.toNat := by
    simp [list_to_vec, hq, hnn, hnz]
  refine ⟨?_, ?_, ?_, ?_⟩
  · intro hall
    rw [hl2v, decodeCells_ok cells len.toNat 0 (by simpa using hall)]
    simp
  · intro m hm hnone hprev
    rw [hl2v]
    exact (decodeCells_err_at cells len.toNat 0 m hm (by simpa using hprev)).1
      (by simpa using hnone)
  · intro m b hm hsome hbad hprev
    rw [hl2v]
    exact (decodeCells_err_at cells len.toNat 0 m hm (by simpa using hprev)).2
      b (by simpa using hsome) hbad
  · intro cells2 hc
    have hl2v2 : list_to_vec { ptr := q, cells := cells2, len := len } =
        decodeCells cells2 0 len.toNat := by
      simp [list_to_vec, hq, hnn, hnz]
    rw [hl2v, hl2v2]
    exact decodeCells_congr cells cells2 len.toNat 0 (by simpa using hc)

/-- Cell map used by the C8 witness: "h" at index 0, "i" elsewhere. -/
def cellsW : Nat → Option (List Nat) := fun i => if i = 0 then some [104] else some [105]

/-- C8 (witness): element decoding evaluated on a concrete two-element
list — the decoded sequence copies both cells in order. -/
theorem C8_element_decoding_witness :
    list_to_vec { ptr := 1, cells := cellsW, len := 2 } = .ok [[104], [105]] := by
  have hall : ∀ i, i < (2 : Int).toNat → ∃ b, cellsW i = some b ∧ isValidUtf8 b = true := by
    intro i hi
    rcases i with _ | _ | n
    · exact ⟨[104], rfl, by decide⟩
    · exact ⟨[105], rfl, by decide⟩
    · exact absurd hi (by omega)
  have h := (C8_element_decoding cellsW 1 2 (by decide) (by decide)).1 hall
  rw [h]
  decide

/-- C9: serializing a session emits exactly the four configuration
fields — never the handle, so two sessions differing only in handle
serialize identically — and, when the configured paths all still exist
(with the session respecting its cap invariant and its key, if any,
being NUL-free as every constructed key is), deserializing the
serialized form succeeds and yields a session whose `affix()` and
`dictionary()` accessors (and additional dictionaries and key) match the
original's. -/
theorem C9_serde_roundtrip (fs : FS) (e : Engine) (s : SpellChecker)
    (ha : fs.is_file s.affix = true) (hd : fs.is_file s.dictionary = true)
    (hds : ∀ p ∈ s.additional_dictionaries, fs.is_file p = true)
    (hlen : s.additional_dictionaries.length ≤ 20)
    (hkey : ∀ k, s.key = some k → ¬ 0 ∈ k) :
    (∃ c, SpellChecker.deserialize fs e (SpellChecker.serialize s) = .ok c ∧
      c.affix = s.affix ∧ c.dictionary = s.dictionary ∧
      c.additional_dictionaries = s.additional_dictionaries ∧ c.key = s.key) ∧
    (∀ h1 h2 : Nat,
      SpellChecker.serialize { s with handle := h1 } =
        SpellChecker.serialize { s with handle := h2 }) := by
  constructor
  · obtain ⟨sa, sd, sads, sk, sh⟩ := s
    simp only at ha hd hds hlen hkey
    rcases sk with _ | k
    · refine ⟨{ affix := sa, dictionary := sd, additional_dictionaries := sads,
                key := none, handle := e.Hunspell_create sa sd },
              ?_, rfl, rfl, rfl, rfl⟩
      simp only [SpellChecker.deserialize, SpellChecker.serialize,
                 new_ok fs e sa sd ha hd]
      rw [add_all_ok fs e sads _ (by simpa using hlen) hds]
      simp
    · have hk0 : ¬ 0 ∈ k := hkey k rfl
      refine ⟨{ affix := sa, dictionary := sd, additional_dictionaries := sads,
                key := some k, handle := e.Hunspell_create_key sa sd k },
              ?_, rfl, rfl, rfl, rfl⟩
      simp only [SpellChecker.deserialize, SpellChecker.serialize,
                 new_with_key_ok fs e sa sd k ha hd hk0]
      rw [add_all_ok fs e sads _ (by simpa using hlen) hds]
      simp
  · intro h1 h2
    rfl

/-- C9 (witness): the round trip evaluated on the fixture session — the
reconstructed session matches on every configuration field, and
serialization is invariant under the handle. -/
theorem C9_serde_roundtrip_witness :
    (∃ c, SpellChecker.deserialize fsAB engNull (SpellChecker.serialize sAB) = .ok c ∧
      c.affix = sAB.affix ∧ c.dictionary = sAB.dictionary ∧
      c.additional_dictionaries = sAB.additional_dictionaries ∧ c.key = sAB.key) ∧
    (∀ h1 h2 : Nat,
      SpellChecker.serialize { sAB with handle := h1 } =
        SpellChecker.serialize { sAB with handle := h2 }) :=
  C9_serde_roundtrip fsAB engNull sAB (by decide) (by decide)
    (by simp [sAB]) (by decide) (by simp [sAB])
